import Mathlib

/-!
Verification of the Cardano decentralized-identity off-chain implementations
(`src/decentralized-identity/offchain/ccl-java/DIDResolver.java`,
`src/decentralized-identity/offchain/lucid-evolution/did-resolver.ts`, and the
MeshJS module) against the natural-language specification of the identity
state machine.

The embedding models the identity Record (datum), the five state-changing
operations as implemented by each off-chain module, the validity predicates,
the deterministic token-name derivation (with a full executable SHA-256), the
DID-document projection, and — since the on-chain Aiken validator sources are
absent from the repository — a spec-modelled transition validator.

Strings stay `String`; all integer-valued fields (`validUntil`, `nonce`,
times) are modelled as `Int`, the mathematical reading of TypeScript `bigint`
(Lucid), TypeScript `number` used integrally (MeshJS), and Java `long`.
-/

namespace DID

/-- A delegate entry of the identity Record: `Delegate` in all three sources
(Java record `Delegate(delegateAddress, delegateType, validUntil)`, and the
equal TS interfaces). -/
structure Delegate where
  delegateAddress : String
  delegateType : String
  validUntil : Int
  deriving Repr, DecidableEq

/-- An attribute entry of the identity Record: `Attribute` in all three
sources. -/
structure Attribute where
  name : String
  value : String
  validUntil : Int
  deriving Repr, DecidableEq

/-- The identity Record: `IdentityDatum` in all three sources. -/
structure IdentityDatum where
  identity : String
  owner : String
  delegates : List Delegate
  attributes : List Attribute
  nonce : Int
  deriving Repr, DecidableEq

/-- TS `isDelegateValid` (MeshJS `identity.ts` line 198, Lucid `identity.ts`
line 582): `validUntil === 0 || validUntil > currentTime`. -/
def isDelegateValid (delegate : Delegate) (currentTime : Int) : Bool :=
  delegate.validUntil == 0 || decide (delegate.validUntil > currentTime)

/-- TS `isAttributeValid` (MeshJS line 205, Lucid line 596). -/
def isAttributeValid (attr : Attribute) (currentTime : Int) : Bool :=
  attr.validUntil == 0 || decide (attr.validUntil > currentTime)

/-- Java `Delegate.isValid` (`DIDResolver.java` lines 86-88 and the identical
inner record of `Identity`, lines 539-541). -/
def Delegate.isValid (d : Delegate) (currentTime : Int) : Bool :=
  d.validUntil == 0 || decide (d.validUntil > currentTime)

/-- Java `Attribute.isValid` (`DIDResolver.java` lines 92-94, 558-560). -/
def Attribute.isValid (a : Attribute) (currentTime : Int) : Bool :=
  a.validUntil == 0 || decide (a.validUntil > currentTime)

/-- Java `IdentityDatum.withNewOwner` (`DIDResolver.java` lines 630-632). -/
def IdentityDatum.withNewOwner (d : IdentityDatum) (newOwner : String) : IdentityDatum :=
  { d with owner := newOwner, nonce := d.nonce + 1 }

/-- Java `IdentityDatum.withAddedDelegate` (lines 634-640): remove every entry
with the same `(delegateAddress, delegateType)`, then append the new entry. -/
def IdentityDatum.withAddedDelegate (d : IdentityDatum) (delegate : Delegate) : IdentityDatum :=
  { d with
    delegates :=
      (d.delegates.filter (fun x =>
        !(x.delegateAddress == delegate.delegateAddress &&
          x.delegateType == delegate.delegateType))) ++ [delegate],
    nonce := d.nonce + 1 }

/-- Java `IdentityDatum.withRevokedDelegate` (lines 642-647). -/
def IdentityDatum.withRevokedDelegate (d : IdentityDatum)
    (delegateAddress delegateType : String) : IdentityDatum :=
  { d with
    delegates :=
      d.delegates.filter (fun x =>
        !(x.delegateAddress == delegateAddress && x.delegateType == delegateType)),
    nonce := d.nonce + 1 }

/-- Java `IdentityDatum.withSetAttribute` (lines 649-654): remove every entry
with the same `name`, then append the new entry. -/
def IdentityDatum.withSetAttribute (d : IdentityDatum) (attr : Attribute) : IdentityDatum :=
  { d with
    attributes :=
      (d.attributes.filter (fun x => !(x.name == attr.name))) ++ [attr],
    nonce := d.nonce + 1 }

/-- Java `IdentityDatum.withRevokedAttribute` (lines 656-660): remove only on
an exact `name` and `value` match. -/
def IdentityDatum.withRevokedAttribute (d : IdentityDatum)
    (name value : String) : IdentityDatum :=
  { d with
    attributes :=
      d.attributes.filter (fun x => !(x.name == name && x.value == value)),
    nonce := d.nonce + 1 }

namespace MeshIdentityContract

/-- MeshJS `changeOwner` new-datum computation (`part_004` lines 527-531):
`{...currentDatum, owner: newOwnerPkh, nonce: currentDatum.nonce + 1}`. The
transaction-building plumbing around it is out of scope. -/
def changeOwner (currentDatum : IdentityDatum) (newOwnerPkh : String) : IdentityDatum :=
  { currentDatum with owner := newOwnerPkh, nonce := currentDatum.nonce + 1 }

/-- MeshJS `addDelegate` new-datum computation (`part_004` lines 603-621).
`Date.now()` is passed in as `currentTime`. -/
def addDelegate (currentDatum : IdentityDatum) (delegateType delegatePkh : String)
    (validityMs currentTime : Int) : IdentityDatum :=
  let validUntil : Int := if validityMs == 0 then 0 else currentTime + validityMs
  let existingDelegates := currentDatum.delegates.filter (fun d =>
    !(d.delegateAddress == delegatePkh && d.delegateType == delegateType))
  let newDelegates := existingDelegates ++
    [{ delegateAddress := delegatePkh, delegateType := delegateType, validUntil := validUntil }]
  { currentDatum with delegates := newDelegates, nonce := currentDatum.nonce + 1 }

/-- MeshJS `addDelegate` declared transaction validity window lower bound
(`part_004` line 656): `.validFrom(currentTime - 60_000)`. -/
def addDelegateValidFrom (currentTime : Int) : Int := currentTime - 60000

/-- MeshJS `addDelegate` declared transaction validity window upper bound
(`part_004` line 657): `.validTo(currentTime + 600_000)`. -/
def addDelegateValidTo (currentTime : Int) : Int := currentTime + 600000

/-- MeshJS `revokeDelegate` new-datum computation (`part_004` lines 694-704). -/
def revokeDelegate (currentDatum : IdentityDatum)
    (delegateType delegatePkh : String) : IdentityDatum :=
  let newDelegates := currentDatum.delegates.filter (fun d =>
    !(d.delegateAddress == delegatePkh && d.delegateType == delegateType))
  { currentDatum with delegates := newDelegates, nonce := currentDatum.nonce + 1 }

/-- MeshJS `setAttribute` new-datum computation (`part_004` lines 772-785),
with the same `validFrom`/`validTo` window as `addDelegate` (lines 820-821). -/
def setAttribute (currentDatum : IdentityDatum) (name value : String)
    (validityMs currentTime : Int) : IdentityDatum :=
  let validUntil : Int := if validityMs == 0 then 0 else currentTime + validityMs
  let existingAttributes := currentDatum.attributes.filter (fun a => !(a.name == name))
  let newAttributes := existingAttributes ++
    [{ name := name, value := value, validUntil := validUntil }]
  { currentDatum with attributes := newAttributes, nonce := currentDatum.nonce + 1 }

/-- MeshJS `revokeAttribute` new-datum computation (`part_004` lines 858-868):
remove only on an exact `name` and `value` match. -/
def revokeAttribute (currentDatum : IdentityDatum) (name value : String) : IdentityDatum :=
  let newAttributes := currentDatum.attributes.filter (fun a =>
    !(a.name == name && a.value == value))
  { currentDatum with attributes := newAttributes, nonce := currentDatum.nonce + 1 }

end MeshIdentityContract

namespace DecentralizedIdentity

/-- Lucid `addDelegate` new-datum computation (`did-resolver.ts` lines
975-1010): the same replace-then-append update and `nonce + 1n`; the datum is
rebuilt field by field with `identity` and `owner` copied unchanged.
`BigInt(Date.now())` is passed in as `currentTime`. -/
def addDelegate (currentDatum : IdentityDatum) (delegateType delegatePkh : String)
    (validityMs currentTime : Int) : IdentityDatum :=
  let validUntil : Int := if validityMs == 0 then 0 else currentTime + validityMs
  let existingDelegates := currentDatum.delegates.filter (fun d =>
    !(d.delegateAddress == delegatePkh && d.delegateType == delegateType))
  let newDelegates := existingDelegates ++
    [{ delegateAddress := delegatePkh, delegateType := delegateType, validUntil := validUntil }]
  { identity := currentDatum.identity
    owner := currentDatum.owner
    delegates := newDelegates
    attributes := currentDatum.attributes
    nonce := currentDatum.nonce + 1 }

/-- Lucid `addDelegate` declared window lower bound (`did-resolver.ts` line
1027): `.validFrom(Date.now() - 60_000)`. -/
def addDelegateValidFrom (currentTime : Int) : Int := currentTime - 60000

/-- Lucid `setAttribute` new-datum computation (`did-resolver.ts` lines
1146-1177), window declared as in `addDelegate` (lines 1194-1195). -/
def setAttribute (currentDatum : IdentityDatum) (name value : String)
    (validityMs currentTime : Int) : IdentityDatum :=
  let validUntil : Int := if validityMs == 0 then 0 else currentTime + validityMs
  let existingAttributes := currentDatum.attributes.filter (fun a => !(a.name == name))
  let newAttributes := existingAttributes ++
    [{ name := name, value := value, validUntil := validUntil }]
  { identity := currentDatum.identity
    owner := currentDatum.owner
    delegates := currentDatum.delegates
    attributes := newAttributes
    nonce := currentDatum.nonce + 1 }

end DecentralizedIdentity

namespace SHA256

/-- Addition modulo 2^32. -/
def add32 (a b : Nat) : Nat := (a + b) % 4294967296

/-- Right rotation of a 32-bit word. -/
def rotr (n x : Nat) : Nat := ((x >>> n) ||| (x <<< (32 - n))) % 4294967296

/-- Logical right shift. -/
def shr (n x : Nat) : Nat := x >>> n

/-- FIPS 180-4 Ch function; complement taken within 32 bits. -/
def ch (x y z : Nat) : Nat := (x &&& y) ^^^ ((x ^^^ 4294967295) &&& z)

/-- FIPS 180-4 Maj function. -/
def maj (x y z : Nat) : Nat := (x &&& y) ^^^ (x &&& z) ^^^ (y &&& z)

/-- FIPS 180-4 upper-case Sigma-0. -/
def bigSigma0 (x : Nat) : Nat := rotr 2 x ^^^ rotr 13 x ^^^ rotr 22 x

/-- FIPS 180-4 upper-case Sigma-1. -/
def bigSigma1 (x : Nat) : Nat := rotr 6 x ^^^ rotr 11 x ^^^ rotr 25 x

/-- FIPS 180-4 lower-case sigma-0. -/
def smallSigma0 (x : Nat) : Nat := rotr 7 x ^^^ rotr 18 x ^^^ shr 3 x

/-- FIPS 180-4 lower-case sigma-1. -/
def smallSigma1 (x : Nat) : Nat := rotr 17 x ^^^ rotr 19 x ^^^ shr 10 x

/-- The 64 SHA-256 round constants. -/
def K : List Nat := [
  1116352408, 1899447441, 3049323471, 3921009573, 961987163, 1508970993, 2453635748, 2870763221,
  3624381080, 310598401, 607225278, 1426881987, 1925078388, 2162078206, 2614888103, 3248222580,
  3835390401, 4022224774, 264347078, 604807628, 770255983, 1249150122, 1555081692, 1996064986,
  2554220882, 2821834349, 2952996808, 3210313671, 3336571891, 3584528711, 113926993, 338241895,
  666307205, 773529912, 1294757372, 1396182291, 1695183700, 1986661051, 2177026350, 2456956037,
  2730485921, 2820302411, 3259730800, 3345764771, 3516065817, 3600352804, 4094571909, 275423344,
  430227734, 506948616, 659060556, 883997877, 958139571, 1322822218, 1537002063, 1747873779,
  1955562222, 2024104815, 2227730452, 2361852424, 2428436474, 2756734187, 3204031479, 3329325298]

/-- The SHA-256 initial hash state. -/
def H0 : List Nat :=
  [1779033703, 3144134277, 1013904242, 2773480762, 1359893119, 2600822924, 528734635, 1541459225]

/-- A natural number as 8 bytes big-endian (the padded bit length). -/
def be64 (n : Nat) : List Nat :=
  [(n >>> 56) % 256, (n >>> 48) % 256, (n >>> 40) % 256, (n >>> 32) % 256,
   (n >>> 24) % 256, (n >>> 16) % 256, (n >>> 8) % 256, n % 256]

/-- FIPS 180-4 padding: a 0x80 byte, zeros to 56 mod 64, the bit length. -/
def pad (msg : List Nat) : List Nat :=
  let len := msg.length
  let k := (56 + 64 - (len + 1) % 64) % 64
  msg ++ [128] ++ List.replicate k 0 ++ be64 (8 * len)

/-- Group bytes into 32-bit big-endian words. -/
def bytesToWords : List Nat → List Nat
  | b0 :: b1 :: b2 :: b3 :: rest => (((b0 * 256 + b1) * 256 + b2) * 256 + b3) :: bytesToWords rest
  | _ => []

/-- Group words into 16-word blocks (the padded input is always a multiple of
16 words long). -/
def toBlocks : List Nat → List (List Nat)
  | w0 :: w1 :: w2 :: w3 :: w4 :: w5 :: w6 :: w7 ::
    w8 :: w9 :: w10 :: w11 :: w12 :: w13 :: w14 :: w15 :: rest =>
    [w0, w1, w2, w3, w4, w5, w6, w7, w8, w9, w10, w11, w12, w13, w14, w15] :: toBlocks rest
  | _ => []

/-- Extend a 16-word block by the given number of schedule words. -/
def extendSchedule (w : List Nat) : Nat → List Nat
  | 0 => w
  | n + 1 =>
    let prev := extendSchedule w n
    let len := prev.length
    prev ++ [add32 (add32 (smallSigma1 (prev.getD (len - 2) 0)) (prev.getD (len - 7) 0))
                   (add32 (smallSigma0 (prev.getD (len - 15) 0)) (prev.getD (len - 16) 0))]

/-- One SHA-256 round on the 8-word working state. -/
def round (st : List Nat) (kw : Nat × Nat) : List Nat :=
  match st with
  | [a, b, c, d, e, f, g, h] =>
    let t1 := add32 h (add32 (bigSigma1 e) (add32 (ch e f g) (add32 kw.1 kw.2)))
    let t2 := add32 (bigSigma0 a) (maj a b c)
    [add32 t1 t2, a, b, c, add32 d t1, e, f, g]
  | other => other

/-- Compress one 16-word block into the hash state. -/
def compress (st : List Nat) (block : List Nat) : List Nat :=
  let w := extendSchedule block 48
  let final := (K.zip w).foldl round st
  List.zipWith add32 st final

/-- A 32-bit word as 4 bytes big-endian. -/
def word32Bytes (n : Nat) : List Nat :=
  [(n >>> 24) % 256, (n >>> 16) % 256, (n >>> 8) % 256, n % 256]

/-- SHA-256 of a byte sequence, as 32 digest bytes. This one definition
embeds the hash library used by all three sources (`@noble/hashes/sha2`
`sha256` in both TS modules, `MessageDigest.getInstance("SHA-256")` in Java):
all compute the standard FIPS 180-4 SHA-256 function. -/
def sha256 (msg : List Nat) : List Nat :=
  (((toBlocks (bytesToWords (pad msg))).foldl compress H0).map word32Bytes).flatten

end SHA256

/-- Lower-case hex digit of a value below 16. -/
def hexDigitChar (n : Nat) : Char :=
  if n < 10 then Char.ofNat (48 + n) else Char.ofNat (87 + n)

/-- Lower-case hex encoding of a byte sequence (`encodeHex` from
`@std/encoding/hex` in the TS modules, `HexUtil.encodeHexString` in Java). -/
def encodeHex (bytes : List Nat) : String :=
  String.mk (bytes.foldr (fun b acc => hexDigitChar (b / 16) :: hexDigitChar (b % 16) :: acc) [])

/-- The output index as 4 bytes big-endian after coercion modulo 2^32: JS
`new DataView(buf).setUint32(0, outputIndex, false)` (both TS modules) and
Java `ByteBuffer.putInt(outputIndex)` write exactly these bytes. -/
def be32 (n : Nat) : List Nat :=
  let m := n % 4294967296
  [(m >>> 24) % 256, (m >>> 16) % 256, (m >>> 8) % 256, m % 256]

namespace Mesh

/-- MeshJS `computeIdentityTokenName` (`part_004` lines 125-136): SHA-256 of
the transaction-hash bytes concatenated with the output index as a 4-byte
big-endian integer, hex-encoded. The library's hex decoding of the
transaction-hash string is applied by the caller; the embedding takes the
decoded bytes. -/
def computeIdentityTokenName (txHashBytes : List Nat) (outputIndex : Nat) : String :=
  let outputIndexBytes := be32 outputIndex
  let combined := txHashBytes ++ outputIndexBytes
  encodeHex (SHA256.sha256 combined)

end Mesh

namespace Lucid

/-- Lucid `computeIdentityTokenName` (`did-resolver.ts` lines 537-548): the
same assembly as the MeshJS module, byte for byte. -/
def computeIdentityTokenName (txHashBytes : List Nat) (outputIndex : Nat) : String :=
  let outputIndexBytes := be32 outputIndex
  let combined := txHashBytes ++ outputIndexBytes
  encodeHex (SHA256.sha256 combined)

end Lucid

namespace Identity

/-- Java `Identity.computeIdentityTokenName` (`DIDResolver.java` lines
752-761): `ByteBuffer` of the transaction-hash bytes followed by
`putInt(outputIndex)`, hashed with SHA-256 and hex-encoded. -/
def computeIdentityTokenName (txHashBytes : List Nat) (outputIndex : Nat) : String :=
  let buffer := txHashBytes ++ be32 outputIndex
  encodeHex (SHA256.sha256 buffer)

/-- Java `Identity.addDelegate` new-datum computation (`DIDResolver.java`
lines 935-950): `validUntil = validityDays == 0 ? 0 :
currentTime + validityDays * 24L * 60 * 60 * 1000`, then
`IdentityDatum.withAddedDelegate`. `Instant.now().toEpochMilli()` is passed
in as `currentTime`. -/
def addDelegate (currentDatum : IdentityDatum) (delegateType delegatePkh : String)
    (validityDays currentTime : Int) : IdentityDatum :=
  let validUntil : Int :=
    if validityDays == 0 then 0 else currentTime + validityDays * 86400000
  currentDatum.withAddedDelegate
    { delegateAddress := delegatePkh, delegateType := delegateType, validUntil := validUntil }

/-- Java `Identity.addDelegate`/`setAttribute` declared window lower bound
(`DIDResolver.java` lines 969, 1047): `.validFrom(slot - 100)` — in slots of
the latest block, not in the milliseconds of the clock that produced
`validUntil`. -/
def addDelegateValidFrom (slot : Int) : Int := slot - 100

/-- Java `Identity.addDelegate`/`setAttribute` declared window upper bound
(`DIDResolver.java` lines 970, 1048): `.validTo(slot + 1000)`, in slots. -/
def addDelegateValidTo (slot : Int) : Int := slot + 1000

/-- Java `Identity.setAttribute` new-datum computation (`DIDResolver.java`
lines 1014-1028): the same validity computation as `addDelegate`, then
`IdentityDatum.withSetAttribute`. -/
def setAttribute (currentDatum : IdentityDatum) (name value : String)
    (validityDays currentTime : Int) : IdentityDatum :=
  let validUntil : Int :=
    if validityDays == 0 then 0 else currentTime + validityDays * 86400000
  currentDatum.withSetAttribute
    { name := name, value := value, validUntil := validUntil }

end Identity

/-- The identity action vocabulary: the five spend redeemers built by every
off-chain module (constructor indices 0-4: Lucid `did-resolver.ts` lines
924, 1013-1015, 1094-1096, 1180-1182, 1256-1258; Java redeemer builders
lines 677-726). -/
inductive IdentityAction where
  | ChangeOwner (newOwner : String)
  | AddDelegate (delegateType delegate : String) (validity : Int)
  | RevokeDelegate (delegateType delegate : String)
  | SetAttribute (name value : String) (validity : Int)
  | RevokeAttribute (name value : String)
  deriving Repr, DecidableEq

/-- The error taxonomy of the specification (section 7). -/
inductive IdentityError where
  | AuthorizationError
  | UniquenessViolation
  | SchemaViolation
  | NonceError
  | ValidityRangeError
  | TokenPreservationError
  deriving Repr, DecidableEq

/-- Modelled from the spec: the absolute expiry computed by the on-chain
validator, `validity == 0 ? 0 : lower_bound_of_tx_validity_window + validity`
(section 4.2, table row for AddDelegate/SetAttribute). The Aiken validator
sources (`validators/identity.ak`) are absent from the repository; only their
blueprint loaders and redeemer builders appear under `src/`. -/
def specValidUntil (validity lower : Int) : Int :=
  if validity = 0 then 0 else lower + validity

/-- Modelled from the spec: the action-specific Record transformation of
section 4.2's table, including the unconditional nonce increment. Delegate
and attribute sets are kept as lists with the replace-then-insert update the
off-chain modules use; the spec says decisions depend only on key-field
equality. -/
def specApply (D : IdentityDatum) (A : IdentityAction) (lower : Int) : IdentityDatum :=
  match A with
  | .ChangeOwner newOwner =>
    { D with owner := newOwner, nonce := D.nonce + 1 }
  | .AddDelegate ty dg v =>
    { D with
      delegates :=
        (D.delegates.filter (fun x => !(x.delegateAddress == dg && x.delegateType == ty))) ++
          [{ delegateAddress := dg, delegateType := ty, validUntil := specValidUntil v lower }],
      nonce := D.nonce + 1 }
  | .RevokeDelegate ty dg =>
    { D with
      delegates := D.delegates.filter (fun x => !(x.delegateAddress == dg && x.delegateType == ty)),
      nonce := D.nonce + 1 }
  | .SetAttribute n v validity =>
    { D with
      attributes :=
        (D.attributes.filter (fun x => !(x.name == n))) ++
          [{ name := n, value := v, validUntil := specValidUntil validity lower }],
      nonce := D.nonce + 1 }
  | .RevokeAttribute n v =>
    { D with
      attributes := D.attributes.filter (fun x => !(x.name == n && x.value == v)),
      nonce := D.nonce + 1 }

/-- Modelled from the spec: the identity state-machine validator of section
4.2, deciding a proposed transition from Record `D` to Record `Dnext` under
action `A`. The Aiken sources are absent from the repository, so this follows
the spec's five numbered rules in order: (1) the signer set must contain
`D.owner`, else `AuthorizationError`; (2) the continuing output must re-attach
the Identity Token, abstracted as the oracle fact `tokenPreserved`, else
`TokenPreservationError`; (3) `Dnext.nonce == D.nonce + 1` unconditionally,
else `NonceError`; (5) when an absolute expiry must be computed the declared
validity interval must be bounded on both sides, else `ValidityRangeError`;
(4) `Dnext` must equal the action-specific transformation of `D`, else
`SchemaViolation` (the taxonomy's malformed-Record error). -/
def validateTransition (D : IdentityDatum) (A : IdentityAction) (Dnext : IdentityDatum)
    (signers : List String) (window : Option Int × Option Int) (tokenPreserved : Bool) :
    Except IdentityError Unit :=
  if !(signers.contains D.owner) then .error .AuthorizationError
  else if !tokenPreserved then .error .TokenPreservationError
  else if Dnext.nonce ≠ D.nonce + 1 then .error .NonceError
  else
    match A with
    | .AddDelegate _ _ v | .SetAttribute _ _ v =>
      if v ≠ 0 then
        match window with
        | (some lower, some _) =>
          if Dnext = specApply D A lower then .ok () else .error .SchemaViolation
        | _ => .error .ValidityRangeError
      else if Dnext = specApply D A 0 then .ok () else .error .SchemaViolation
    | _ =>
      if Dnext = specApply D A 0 then .ok () else .error .SchemaViolation

/-- W3C verification method as populated by all three resolvers (only these
four fields are ever set). -/
structure VerificationMethod where
  id : String
  type : String
  controller : String
  blockchainAccountId : String
  deriving Repr, DecidableEq

/-- W3C service endpoint entry. -/
structure ServiceEndpoint where
  id : String
  type : String
  serviceEndpoint : String
  deriving Repr, DecidableEq

/-- The `cardanoIdentity` custom-attribute block added when any non-reserved
attribute is valid. -/
structure CardanoIdentityMeta where
  network : String
  nonce : Int
  attributes : List (String × String)
  deriving Repr, DecidableEq

/-- W3C DID Document as built by the three resolvers; `keyAgreement`,
`service` and `cardanoIdentity` are omitted (`undefined` / `null`) when
empty. The constant two-element `@context` array the sources always attach
is not modelled. -/
structure DIDDocument where
  id : String
  controller : List String
  verificationMethod : List VerificationMethod
  authentication : List String
  assertionMethod : List String
  keyAgreement : Option (List String)
  capabilityInvocation : List String
  capabilityDelegation : List String
  service : Option (List ServiceEndpoint)
  cardanoIdentity : Option CardanoIdentityMeta
  deriving Repr, DecidableEq

/-- The owner verification-method id, `did#owner`. -/
def ownerVMId (did : String) : String := did ++ "#owner"

/-- The verification-method id of the delegate at position `i` of the valid
delegate list, `did#delegate-i`. -/
def delegateVMId (did : String) (i : Nat) : String := did ++ "#delegate-" ++ toString i

/-- The service id for the attribute at position `i` of the valid attribute
list, `did#service-i`. -/
def serviceEndpointId (did : String) (i : Nat) : String := did ++ "#service-" ++ toString i

/-- A CAIP-style account reference, `cardano:network:keyhash`. -/
def accountId (network addr : String) : String := "cardano:" ++ network ++ ":" ++ addr

/-- JS `String.startsWith` / Java `String.startsWith`, modelled on the
character sequence (`p` is the candidate head of `s`). -/
def startsWith (s p : String) : Bool := p.data.isPrefixOf s.data

/-- The verification-relationship ids contributed by valid delegates of one
delegate type, in list order: the resolvers walk the valid delegates with
their indices and push `did#delegate-i` into the relationship selected by the
delegate's type. -/
def delegateRelIds (did ty : String) (validDelegates : List Delegate) : List String :=
  validDelegates.enum.filterMap fun p =>
    if p.2.delegateType == ty then some (delegateVMId did p.1) else none

/-- The service-endpoint entries: valid attributes whose name starts with
"did/svc/" become services typed by the name with the eight-character
service marker removed and pointing at the attribute value. -/
def servicesOf (did : String) (validAttributes : List Attribute) : List ServiceEndpoint :=
  validAttributes.enum.filterMap fun p =>
    if startsWith p.2.name "did/svc/" then
      some { id := serviceEndpointId did p.1,
             type := String.drop p.2.name 8,
             serviceEndpoint := p.2.value }
    else none

/-- The custom-attribute pairs: valid attributes whose name does not start
with "did/". (The sources use a string-keyed map; under the per-name
uniqueness invariant the association list below has the same content.) -/
def customAttrsOf (validAttributes : List Attribute) : List (String × String) :=
  (validAttributes.filter fun a => !(startsWith a.name "did/")).map fun a => (a.name, a.value)

/-- `buildDIDDocument` as implemented identically by the three resolvers
(Lucid `did-resolver.ts` lines 156-249, MeshJS `part_004` lines 1162-1255,
Java `DIDResolver.java` lines 174-263). The system-clock read
(`Date.now()` / `System.currentTimeMillis()`) is passed in as `currentTime`,
and the resolver's configured network as `network`. -/
def buildDIDDocument (network did : String) (datum : IdentityDatum) (currentTime : Int) :
    DIDDocument :=
  let validDelegates := datum.delegates.filter (fun d => isDelegateValid d currentTime)
  let validAttributes := datum.attributes.filter (fun a => isAttributeValid a currentTime)
  let ownerId := ownerVMId did
  let ownerVM : VerificationMethod :=
    { id := ownerId, type := "Ed25519VerificationKey2020", controller := did,
      blockchainAccountId := accountId network datum.owner }
  let delegateVMs := validDelegates.enum.map fun p =>
    ({ id := delegateVMId did p.1, type := "Ed25519VerificationKey2020", controller := did,
       blockchainAccountId := accountId network p.2.delegateAddress } : VerificationMethod)
  let authentication := ownerId :: delegateRelIds did "veriKey" validDelegates
  let assertionMethod := ownerId :: delegateRelIds did "sigAuth" validDelegates
  let keyAgreement := delegateRelIds did "enc" validDelegates
  let services := servicesOf did validAttributes
  let customAttrs := customAttrsOf validAttributes
  { id := did
    controller := [did]
    verificationMethod := ownerVM :: delegateVMs
    authentication := authentication
    assertionMethod := assertionMethod
    keyAgreement := if keyAgreement.isEmpty then none else some keyAgreement
    capabilityInvocation := [ownerId]
    capabilityDelegation := [ownerId]
    service := if services.isEmpty then none else some services
    cardanoIdentity :=
      if customAttrs.isEmpty then none
      else some { network := network, nonce := datum.nonce, attributes := customAttrs } }

/-- The identifying key of a delegate entry. -/
def delegateKey (d : Delegate) : String × String := (d.delegateAddress, d.delegateType)

/-- At most one delegate entry per `(address, type)` pair. -/
def delegatesUniqueByKey (l : List Delegate) : Prop := (l.map delegateKey).Nodup

/-- At most one attribute entry per `name`. -/
def attributesUniqueByName (l : List Attribute) : Prop := (l.map Attribute.name).Nodup

/-- The Record key-uniqueness invariant of the specification's data-model
section. -/
def datumKeysUnique (d : IdentityDatum) : Prop :=
  delegatesUniqueByKey d.delegates ∧ attributesUniqueByName d.attributes

instance (l : List Delegate) : Decidable (delegatesUniqueByKey l) :=
  inferInstanceAs (Decidable (List.Nodup _))

instance (l : List Attribute) : Decidable (attributesUniqueByName l) :=
  inferInstanceAs (Decidable (List.Nodup _))

instance (d : IdentityDatum) : Decidable (datumKeysUnique d) :=
  inferInstanceAs (Decidable (_ ∧ _))

end DID

namespace DID

/-- SHA-256 matches the FIPS 180-4 test vector for the message "abc". -/
theorem sha256_fips_vector_abc :
    encodeHex (SHA256.sha256 [97, 98, 99]) =
      "ba7816bf8f01cfea414140de5dae2223b00361a396177a9cb410ff61f20015ad" := by rfl

/-- SHA-256 matches the FIPS 180-4 test vector for the empty message. -/
theorem sha256_fips_vector_empty :
    encodeHex (SHA256.sha256 []) =
      "e3b0c44298fc1c149afbf4c8996fb92427ae41e4649b934ca495991b7852b855" := by rfl

/-- C1: every state-changing operation (ChangeOwner, AddDelegate,
RevokeDelegate, SetAttribute, RevokeAttribute), in both the Java
`IdentityDatum.with*` family and the MeshJS/Lucid new-datum computations,
produces a Record whose nonce equals the input Record's nonce plus exactly 1;
increments of exactly one can neither decrease the nonce nor skip a value. -/
theorem c1_nonce_increments_by_one (d : IdentityDatum) (dg : Delegate) (att : Attribute)
    (o a t n v : String) (ms ct : Int) :
    (d.withNewOwner o).nonce = d.nonce + 1 ∧
    (d.withAddedDelegate dg).nonce = d.nonce + 1 ∧
    (d.withRevokedDelegate a t).nonce = d.nonce + 1 ∧
    (d.withSetAttribute att).nonce = d.nonce + 1 ∧
    (d.withRevokedAttribute n v).nonce = d.nonce + 1 ∧
    (MeshIdentityContract.changeOwner d o).nonce = d.nonce + 1 ∧
    (MeshIdentityContract.addDelegate d t a ms ct).nonce = d.nonce + 1 ∧
    (MeshIdentityContract.revokeDelegate d t a).nonce = d.nonce + 1 ∧
    (MeshIdentityContract.setAttribute d n v ms ct).nonce = d.nonce + 1 ∧
    (MeshIdentityContract.revokeAttribute d n v).nonce = d.nonce + 1 ∧
    (DecentralizedIdentity.addDelegate d t a ms ct).nonce = d.nonce + 1 ∧
    (DecentralizedIdentity.setAttribute d n v ms ct).nonce = d.nonce + 1 :=
  ⟨rfl, rfl, rfl, rfl, rfl, rfl, rfl, rfl, rfl, rfl, rfl, rfl⟩

/-- C2: for every action and proposed next Record, a transition whose signer
set does not contain the current owner is rejected with AuthorizationError —
regardless of which other keys (including currently-valid delegates) signed. -/
theorem c2_nonowner_signers_rejected (D : IdentityDatum) (A : IdentityAction)
    (Dnext : IdentityDatum) (signers : List String) (window : Option Int × Option Int)
    (tokenPreserved : Bool) (h : signers.contains D.owner = false) :
    validateTransition D A Dnext signers window tokenPreserved =
      Except.error IdentityError.AuthorizationError := by
  have h' : ¬ (D.owner ∈ signers) := by simpa using h
  simp [validateTransition, h']

/-- C2 witness: the sole signer is a currently-valid sigAuth delegate of the
Record, yet a ChangeOwner transition in its favor is rejected with
AuthorizationError. -/
theorem c2_witness :
    (["dd"].contains ("oo" : String) = false) ∧
    isDelegateValid ⟨"dd", "sigAuth", 0⟩ 1000 = true ∧
    validateTransition ⟨"ii", "oo", [⟨"dd", "sigAuth", 0⟩], [], 5⟩
        (IdentityAction.ChangeOwner "dd")
        ⟨"ii", "dd", [⟨"dd", "sigAuth", 0⟩], [], 6⟩
        ["dd"] (some 0, some 10) true =
      Except.error IdentityError.AuthorizationError :=
  ⟨by decide, by decide,
    c2_nonowner_signers_rejected _ _ _ _ _ _ (by decide)⟩

/-- C7: a delegate or attribute entry is valid at time t exactly when its
valid_until is 0 (never expires) or strictly greater than t — in the TS
predicates and the identical Java methods — and consequently an entry with a
non-zero absolute deadline e is valid at e-1 and invalid at e+1. -/
theorem c7_validity_boundary :
    (∀ (dg : Delegate) (t : Int),
        (isDelegateValid dg t = true ↔ dg.validUntil = 0 ∨ dg.validUntil > t) ∧
        Delegate.isValid dg t = isDelegateValid dg t) ∧
    (∀ (a : Attribute) (t : Int),
        (isAttributeValid a t = true ↔ a.validUntil = 0 ∨ a.validUntil > t) ∧
        Attribute.isValid a t = isAttributeValid a t) ∧
    (∀ (dg : Delegate), dg.validUntil ≠ 0 →
        isDelegateValid dg (dg.validUntil - 1) = true ∧
        isDelegateValid dg (dg.validUntil + 1) = false) := by
  refine ⟨fun dg t => ⟨?_, rfl⟩, fun a t => ⟨?_, rfl⟩, fun dg h => ⟨?_, ?_⟩⟩ <;>
    simp [isDelegateValid, isAttributeValid]
  all_goals omega

/-- C7 witness: a delegate with deadline 5 is valid at 4 and invalid at 6. -/
theorem c7_witness :
    ((5 : Int) ≠ 0) ∧
    isDelegateValid ⟨"aa", "veriKey", 5⟩ ((5 : Int) - 1) = true ∧
    isDelegateValid ⟨"aa", "veriKey", 5⟩ ((5 : Int) + 1) = false :=
  ⟨by decide,
    (c7_validity_boundary.2.2 ⟨"aa", "veriKey", 5⟩ (by decide)).1,
    (c7_validity_boundary.2.2 ⟨"aa", "veriKey", 5⟩ (by decide)).2⟩

/-- C5 counterexample: MeshJS addDelegate on an empty Record with validity
1000 ms at clock time 100000 stores valid_until 101000, which is not the
declared window lower bound (100000 - 60000) plus the validity (41000). -/
theorem c5_counterexample :
    ¬ ((MeshIdentityContract.addDelegate ⟨"ii", "oo", [], [], 0⟩ "veriKey" "dd"
          1000 100000).delegates.map Delegate.validUntil =
        [MeshIdentityContract.addDelegateValidFrom 100000 + 1000]) := by
  decide

end DID

namespace DID

/-- A delegate filter by key mismatch keeps every entry when no entry has the
key. -/
theorem filter_delegates_no_match (l : List Delegate) (a t : String)
    (h : ∀ x ∈ l, ¬(x.delegateAddress = a ∧ x.delegateType = t)) :
    l.filter (fun x => !(x.delegateAddress == a && x.delegateType == t)) = l := by
  refine List.filter_eq_self.mpr fun x hx => ?_
  have hx' := h x hx
  simp only [Bool.not_eq_eq_eq_not, Bool.not_true, Bool.and_eq_false_imp, beq_iff_eq,
    Bool.not_eq_true', beq_eq_false_iff_ne, ne_eq]
  intro h1 h2
  exact hx' ⟨h1, h2⟩

/-- An attribute filter by exact name-value mismatch keeps every entry when no
entry matches both. -/
theorem filter_attributes_no_match (l : List Attribute) (n v : String)
    (h : ∀ x ∈ l, ¬(x.name = n ∧ x.value = v)) :
    l.filter (fun x => !(x.name == n && x.value == v)) = l := by
  refine List.filter_eq_self.mpr fun x hx => ?_
  have hx' := h x hx
  simp only [Bool.not_eq_eq_eq_not, Bool.not_true, Bool.and_eq_false_imp, beq_iff_eq,
    Bool.not_eq_true', beq_eq_false_iff_ne, ne_eq]
  intro h1 h2
  exact hx' ⟨h1, h2⟩

/-- C5 (amended): with a non-zero validity duration, the stored valid_until
equals the off-chain clock reading in milliseconds plus the duration
(Mesh/Lucid take the duration in milliseconds; Java takes days and stores
the clock plus days times 86400000 ms), never the declared window's lower
bound plus the duration: Mesh and Lucid declare the window as the clock
minus 60000 ms to the clock plus 600000 ms, so their stored valid_until
exceeds the window lower bound plus the duration by exactly 60000 ms, while
Java declares its window in slots of the latest block (slot minus 100 to
slot plus 1000), a quantity unrelated to the millisecond clock and absent
from the stored value. A validity of 0 stores valid_until 0 (never
expires). The new entry is appended last in every implementation. -/
theorem c5_valid_until_amended (d : IdentityDatum) (ty pk n v : String)
    (ms days ct : Int) :
    ((MeshIdentityContract.addDelegate d ty pk ms ct).delegates.getLast? =
      some ⟨pk, ty,
        if ms = 0 then 0 else MeshIdentityContract.addDelegateValidFrom ct + 60000 + ms⟩) ∧
    ((MeshIdentityContract.setAttribute d n v ms ct).attributes.getLast? =
      some ⟨n, v,
        if ms = 0 then 0 else MeshIdentityContract.addDelegateValidFrom ct + 60000 + ms⟩) ∧
    ((DecentralizedIdentity.addDelegate d ty pk ms ct).delegates.getLast? =
      some ⟨pk, ty,
        if ms = 0 then 0 else DecentralizedIdentity.addDelegateValidFrom ct + 60000 + ms⟩) ∧
    ((DecentralizedIdentity.setAttribute d n v ms ct).attributes.getLast? =
      some ⟨n, v,
        if ms = 0 then 0 else DecentralizedIdentity.addDelegateValidFrom ct + 60000 + ms⟩) ∧
    ((Identity.addDelegate d ty pk days ct).delegates.getLast? =
      some ⟨pk, ty, if days = 0 then 0 else ct + days * 86400000⟩) ∧
    ((Identity.setAttribute d n v days ct).attributes.getLast? =
      some ⟨n, v, if days = 0 then 0 else ct + days * 86400000⟩) := by
  refine ⟨?_, ?_, ?_, ?_, ?_, ?_⟩ <;>
    · simp only [MeshIdentityContract.addDelegate, MeshIdentityContract.setAttribute,
        DecentralizedIdentity.addDelegate, DecentralizedIdentity.setAttribute,
        Identity.addDelegate, Identity.setAttribute,
        IdentityDatum.withAddedDelegate, IdentityDatum.withSetAttribute,
        MeshIdentityContract.addDelegateValidFrom, DecentralizedIdentity.addDelegateValidFrom,
        List.getLast?_concat, Option.some.injEq, Delegate.mk.injEq, Attribute.mk.injEq,
        beq_iff_eq, eq_self_iff_true, true_and]
      all_goals split <;> omega

/-- C6 counterexample: on a Record already holding the delegate
("aa", veriKey, 5), AddDelegate("veriKey", "aa", ...) followed by
RevokeDelegate("veriKey", "aa") yields an empty delegate set, not the
pre-add set. -/
theorem c6_counterexample :
    ¬ ((((⟨"ii", "oo", [⟨"aa", "veriKey", 5⟩], [], 0⟩ : IdentityDatum).withAddedDelegate
          ⟨"aa", "veriKey", 99⟩).withRevokedDelegate "aa" "veriKey").delegates =
        [⟨"aa", "veriKey", 5⟩]) := by
  decide

/-- C6 (amended): on a Record whose delegate set holds no entry with the
added delegate's (address, type) key, AddDelegate followed by RevokeDelegate
of that key restores the pre-add delegate set, in both the Java and MeshJS
operations. -/
theorem c6_round_trip_amended (d : IdentityDatum) (dg : Delegate) (ms ct : Int)
    (h : ∀ x ∈ d.delegates,
      ¬(x.delegateAddress = dg.delegateAddress ∧ x.delegateType = dg.delegateType)) :
    ((d.withAddedDelegate dg).withRevokedDelegate
        dg.delegateAddress dg.delegateType).delegates = d.delegates ∧
    (MeshIdentityContract.revokeDelegate
        (MeshIdentityContract.addDelegate d dg.delegateType dg.delegateAddress ms ct)
        dg.delegateType dg.delegateAddress).delegates = d.delegates := by
  constructor <;>
    · simp [IdentityDatum.withAddedDelegate, IdentityDatum.withRevokedDelegate,
        MeshIdentityContract.addDelegate, MeshIdentityContract.revokeDelegate,
        List.filter_append, List.filter_filter]
      intro x hx
      have hx' := h x hx
      tauto

/-- C6 witness: with an unrelated delegate present and no ("aa", veriKey)
entry, the add-revoke round trip restores the delegate set. -/
theorem c6_witness :
    (∀ x ∈ ([⟨"bb", "enc", 7⟩] : List Delegate),
        ¬(x.delegateAddress = "aa" ∧ x.delegateType = "veriKey")) ∧
    (((⟨"ii", "oo", [⟨"bb", "enc", 7⟩], [], 0⟩ : IdentityDatum).withAddedDelegate
        ⟨"aa", "veriKey", 99⟩).withRevokedDelegate "aa" "veriKey").delegates =
      [⟨"bb", "enc", 7⟩] :=
  ⟨by decide,
    (c6_round_trip_amended ⟨"ii", "oo", [⟨"bb", "enc", 7⟩], [], 0⟩
      ⟨"aa", "veriKey", 99⟩ 0 0 (by decide)).1⟩

end DID

namespace DID

/-- C8: RevokeAttribute removes an entry exactly when both its name and value
match the requested pair (entries matching on name alone, or not at all, are
retained); and revoking an absent attribute or delegate leaves the Record
unchanged apart from the nonce increment, in both the Java and MeshJS
operations. -/
theorem c8_revoke_exact_and_idempotent (d : IdentityDatum) (n v a t : String) :
    (∀ x ∈ d.attributes, x.name = n → x.value = v →
        x ∉ (d.withRevokedAttribute n v).attributes) ∧
    (∀ x ∈ d.attributes, ¬(x.name = n ∧ x.value = v) →
        x ∈ (d.withRevokedAttribute n v).attributes) ∧
    ((∀ y ∈ d.attributes, ¬(y.name = n ∧ y.value = v)) →
        d.withRevokedAttribute n v = { d with nonce := d.nonce + 1 } ∧
        MeshIdentityContract.revokeAttribute d n v = { d with nonce := d.nonce + 1 }) ∧
    ((∀ y ∈ d.delegates, ¬(y.delegateAddress = a ∧ y.delegateType = t)) →
        d.withRevokedDelegate a t = { d with nonce := d.nonce + 1 } ∧
        MeshIdentityContract.revokeDelegate d t a = { d with nonce := d.nonce + 1 }) := by
  refine ⟨?_, ?_, fun h => ⟨?_, ?_⟩, fun h => ⟨?_, ?_⟩⟩
  · intro x hx h1 h2
    simp [IdentityDatum.withRevokedAttribute, List.mem_filter, h1, h2]
  · intro x hx hne
    simp only [IdentityDatum.withRevokedAttribute, List.mem_filter]
    refine ⟨hx, ?_⟩
    simp only [Bool.not_eq_eq_eq_not, Bool.not_true, Bool.and_eq_false_imp, beq_iff_eq,
      Bool.not_eq_true', beq_eq_false_iff_ne, ne_eq]
    tauto
  all_goals
    simp [IdentityDatum.withRevokedAttribute, MeshIdentityContract.revokeAttribute,
      IdentityDatum.withRevokedDelegate, MeshIdentityContract.revokeDelegate]
    intro x hx
    have := h x hx
    tauto

/-- C8 witness: revoking the absent pair (k, y) on a Record whose only
attribute is (k, x) changes nothing but the nonce, and the value-mismatched
entry (k, x) survives. -/
theorem c8_witness :
    (∀ y ∈ ([⟨"k", "x", 0⟩] : List Attribute), ¬(y.name = "k" ∧ y.value = "y")) ∧
    (⟨"ii", "oo", [], [⟨"k", "x", 0⟩], 3⟩ : IdentityDatum).withRevokedAttribute "k" "y" =
      ⟨"ii", "oo", [], [⟨"k", "x", 0⟩], 3 + 1⟩ ∧
    (⟨"k", "x", 0⟩ : Attribute) ∈
      ((⟨"ii", "oo", [], [⟨"k", "x", 0⟩], 3⟩ : IdentityDatum).withRevokedAttribute
        "k" "y").attributes :=
  ⟨by decide,
    ((c8_revoke_exact_and_idempotent ⟨"ii", "oo", [], [⟨"k", "x", 0⟩], 3⟩
        "k" "y" "aa" "veriKey").2.2.1 (by decide)).1,
    (c8_revoke_exact_and_idempotent ⟨"ii", "oo", [], [⟨"k", "x", 0⟩], 3⟩
        "k" "y" "aa" "veriKey").2.1 ⟨"k", "x", 0⟩ (by decide) (by decide)⟩

/-- A filtered delegate list keeps the per-key uniqueness invariant. -/
theorem delegatesUniqueByKey_filter (l : List Delegate) (p : Delegate → Bool)
    (h : delegatesUniqueByKey l) : delegatesUniqueByKey (l.filter p) :=
  ((List.filter_sublist l).map delegateKey).nodup h

/-- A filtered attribute list keeps the per-name uniqueness invariant. -/
theorem attributesUniqueByName_filter (l : List Attribute) (p : Attribute → Bool)
    (h : attributesUniqueByName l) : attributesUniqueByName (l.filter p) :=
  ((List.filter_sublist l).map Attribute.name).nodup h

/-- Replace-then-append keeps the delegate per-key uniqueness invariant: every
survivor of the filter has a key different from the inserted delegate's. -/
theorem delegatesUniqueByKey_add (l : List Delegate) (dg : Delegate)
    (h : delegatesUniqueByKey l) :
    delegatesUniqueByKey
      ((l.filter (fun x => !(x.delegateAddress == dg.delegateAddress &&
          x.delegateType == dg.delegateType))) ++ [dg]) := by
  unfold delegatesUniqueByKey at *
  rw [List.map_append, List.nodup_append]
  refine ⟨delegatesUniqueByKey_filter l _ h, List.nodup_singleton _, ?_⟩
  intro k hk1 hk2
  simp only [List.map_cons, List.map_nil, List.mem_singleton] at hk2
  obtain ⟨x, hxf, hkey⟩ := List.mem_map.mp hk1
  obtain ⟨-, hpred⟩ := List.mem_filter.mp hxf
  subst hk2
  simp only [delegateKey, Prod.mk.injEq] at hkey
  simp only [Bool.not_eq_eq_eq_not, Bool.not_true, Bool.and_eq_false_imp, beq_iff_eq,
    Bool.not_eq_true', beq_eq_false_iff_ne, ne_eq] at hpred
  exact hpred hkey.1 hkey.2

/-- Replace-then-append keeps the attribute per-name uniqueness invariant. -/
theorem attributesUniqueByName_add (l : List Attribute) (att : Attribute)
    (h : attributesUniqueByName l) :
    attributesUniqueByName ((l.filter (fun x => !(x.name == att.name))) ++ [att]) := by
  unfold attributesUniqueByName at *
  rw [List.map_append, List.nodup_append]
  refine ⟨attributesUniqueByName_filter l _ h, List.nodup_singleton _, ?_⟩
  intro k hk1 hk2
  simp only [List.map_cons, List.map_nil, List.mem_singleton] at hk2
  obtain ⟨x, hxf, hkey⟩ := List.mem_map.mp hk1
  obtain ⟨-, hpred⟩ := List.mem_filter.mp hxf
  subst hk2
  simp only [Bool.not_eq_eq_eq_not, Bool.not_true, Bool.not_eq_true',
    beq_eq_false_iff_ne, ne_eq] at hpred
  exact hpred hkey

/-- C4: every operation preserves the invariant of at most one delegate entry
per (address, type) and at most one attribute entry per name; AddDelegate and
SetAttribute replace the prior matching entry rather than duplicating it, in
both the Java and MeshJS operations. -/
theorem c4_key_uniqueness_preserved (d : IdentityDatum) (dg : Delegate) (att : Attribute)
    (o a t n v : String) (ms ct : Int) (h : datumKeysUnique d) :
    datumKeysUnique (d.withNewOwner o) ∧
    datumKeysUnique (d.withAddedDelegate dg) ∧
    datumKeysUnique (d.withRevokedDelegate a t) ∧
    datumKeysUnique (d.withSetAttribute att) ∧
    datumKeysUnique (d.withRevokedAttribute n v) ∧
    datumKeysUnique (MeshIdentityContract.changeOwner d o) ∧
    datumKeysUnique (MeshIdentityContract.addDelegate d t a ms ct) ∧
    datumKeysUnique (MeshIdentityContract.revokeDelegate d t a) ∧
    datumKeysUnique (MeshIdentityContract.setAttribute d n v ms ct) ∧
    datumKeysUnique (MeshIdentityContract.revokeAttribute d n v) := by
  obtain ⟨hd, ha⟩ := h
  exact ⟨⟨hd, ha⟩,
    ⟨delegatesUniqueByKey_add _ _ hd, ha⟩,
    ⟨delegatesUniqueByKey_filter _ _ hd, ha⟩,
    ⟨hd, attributesUniqueByName_add _ _ ha⟩,
    ⟨hd, attributesUniqueByName_filter _ _ ha⟩,
    ⟨hd, ha⟩,
    ⟨delegatesUniqueByKey_add _ ⟨a, t, if ms == 0 then 0 else ct + ms⟩ hd, ha⟩,
    ⟨delegatesUniqueByKey_filter _ _ hd, ha⟩,
    ⟨hd, attributesUniqueByName_add _ ⟨n, v, if ms == 0 then 0 else ct + ms⟩ ha⟩,
    ⟨hd, attributesUniqueByName_filter _ _ ha⟩⟩

/-- C4 witness: a Record with one delegate and one attribute satisfies the
uniqueness invariant, and so does the result of re-adding a delegate with the
same key. -/
theorem c4_witness :
    datumKeysUnique ⟨"ii", "oo", [⟨"aa", "veriKey", 5⟩], [⟨"k", "x", 0⟩], 3⟩ ∧
    datumKeysUnique
      ((⟨"ii", "oo", [⟨"aa", "veriKey", 5⟩], [⟨"k", "x", 0⟩], 3⟩ : IdentityDatum).withAddedDelegate
        ⟨"aa", "veriKey", 99⟩) :=
  ⟨by decide,
    (c4_key_uniqueness_preserved ⟨"ii", "oo", [⟨"aa", "veriKey", 5⟩], [⟨"k", "x", 0⟩], 3⟩
      ⟨"aa", "veriKey", 99⟩ ⟨"k", "x", 0⟩ "o" "a" "t" "n" "v" 0 0 (by decide)).2.1⟩

end DID

namespace DID

/-- Membership in the per-type verification-relationship list: exactly the
ids of valid delegates of that type, indexed by their position. -/
theorem mem_delegateRelIds (did ty : String) (l : List Delegate) (x : String) :
    x ∈ delegateRelIds did ty l ↔
      ∃ i dg, l[i]? = some dg ∧ dg.delegateType = ty ∧ x = delegateVMId did i := by
  unfold delegateRelIds
  simp only [List.mem_filterMap, Prod.exists]
  constructor
  · rintro ⟨i, dg, hmem, hf⟩
    rw [List.mk_mem_enum_iff_getElem?] at hmem
    by_cases hty : dg.delegateType = ty
    · refine ⟨i, dg, hmem, hty, ?_⟩
      simp only [hty, beq_self_eq_true, if_true, Option.some.injEq] at hf
      exact hf.symm
    · simp only [beq_iff_eq, hty, if_false, reduceCtorEq] at hf
  · rintro ⟨i, dg, hget, hty, hx⟩
    exact ⟨i, dg, List.mk_mem_enum_iff_getElem?.mpr hget, by simp [hty, hx]⟩

/-- Membership in the service list: exactly the valid attributes carrying the
"did/svc/" marker, indexed by their position. -/
theorem mem_servicesOf (did : String) (l : List Attribute) (s : ServiceEndpoint) :
    s ∈ servicesOf did l ↔
      ∃ i attr, l[i]? = some attr ∧ startsWith attr.name "did/svc/" = true ∧
        s = ⟨serviceEndpointId did i, String.drop attr.name 8, attr.value⟩ := by
  unfold servicesOf
  simp only [List.mem_filterMap, Prod.exists]
  constructor
  · rintro ⟨i, attr, hmem, hf⟩
    rw [List.mk_mem_enum_iff_getElem?] at hmem
    by_cases hp : startsWith attr.name "did/svc/" = true
    · refine ⟨i, attr, hmem, hp, ?_⟩
      simp only [hp, if_true, Option.some.injEq] at hf
      exact hf.symm
    · simp only [hp, if_false, reduceCtorEq] at hf
  · rintro ⟨i, attr, hget, hp, hs⟩
    exact ⟨i, attr, List.mk_mem_enum_iff_getElem?.mpr hget, by simp [hp, hs]⟩

/-- The authentication list of the built document. -/
theorem buildDIDDocument_authentication (network did : String) (datum : IdentityDatum)
    (t : Int) :
    (buildDIDDocument network did datum t).authentication =
      ownerVMId did ::
        delegateRelIds did "veriKey" (datum.delegates.filter (fun d => isDelegateValid d t)) :=
  rfl

/-- The assertionMethod list of the built document. -/
theorem buildDIDDocument_assertionMethod (network did : String) (datum : IdentityDatum)
    (t : Int) :
    (buildDIDDocument network did datum t).assertionMethod =
      ownerVMId did ::
        delegateRelIds did "sigAuth" (datum.delegates.filter (fun d => isDelegateValid d t)) :=
  rfl

/-- The keyAgreement list of the built document, with the omitted-when-empty
wrapping removed. -/
theorem buildDIDDocument_keyAgreement_getD (network did : String) (datum : IdentityDatum)
    (t : Int) :
    ((buildDIDDocument network did datum t).keyAgreement).getD [] =
      delegateRelIds did "enc" (datum.delegates.filter (fun d => isDelegateValid d t)) := by
  simp only [buildDIDDocument]
  split
  · rename_i hemp
    simp only [Option.getD_none]
    exact (List.isEmpty_iff.mp hemp).symm
  · simp only [Option.getD_some]

/-- The service list of the built document, with the omitted-when-empty
wrapping removed. -/
theorem buildDIDDocument_service_getD (network did : String) (datum : IdentityDatum)
    (t : Int) :
    ((buildDIDDocument network did datum t).service).getD [] =
      servicesOf did (datum.attributes.filter (fun a => isAttributeValid a t)) := by
  simp only [buildDIDDocument]
  split
  · rename_i hemp
    simp only [Option.getD_none]
    exact (List.isEmpty_iff.mp hemp).symm
  · simp only [Option.getD_some]

/-- The account references of the built document's verification methods: the
owner first, then exactly the valid delegates in order. -/
theorem buildDIDDocument_vm_accounts (network did : String) (datum : IdentityDatum)
    (t : Int) :
    (buildDIDDocument network did datum t).verificationMethod.map
        (fun vm => vm.blockchainAccountId) =
      accountId network datum.owner ::
        (datum.delegates.filter (fun dg => isDelegateValid dg t)).map
          (fun dg => accountId network dg.delegateAddress) := by
  simp only [buildDIDDocument, List.map_cons, List.map_map]
  congr 1
  rw [show ((fun vm : VerificationMethod => vm.blockchainAccountId) ∘
      (fun p : Nat × Delegate =>
        ({ id := delegateVMId did p.1, type := "Ed25519VerificationKey2020", controller := did,
           blockchainAccountId := accountId network p.2.delegateAddress } : VerificationMethod))) =
    ((fun dg : Delegate => accountId network dg.delegateAddress) ∘ Prod.snd) from rfl]
  rw [← List.map_map, List.enum_map_snd]

end DID

namespace DID

/-- C9: for every Record and supplied current time, the projected DID
Document's verification entries are the owner followed by exactly the
non-expired delegates; the delegate type selects the verification
relationship (veriKey joins authentication, sigAuth joins assertionMethod,
enc joins keyAgreement, each alongside the owner where applicable); and the
services are exactly the non-expired attributes whose name begins with
"did/svc/", typed by the name with the marker removed and pointing at the
attribute value. -/
theorem c9_did_document_projection (network did : String) (datum : IdentityDatum) (t : Int) :
    ((buildDIDDocument network did datum t).verificationMethod.map
        (fun vm => vm.blockchainAccountId) =
      accountId network datum.owner ::
        (datum.delegates.filter (fun dg => isDelegateValid dg t)).map
          (fun dg => accountId network dg.delegateAddress)) ∧
    (∀ x, x ∈ (buildDIDDocument network did datum t).authentication ↔
      (x = ownerVMId did ∨ ∃ i dg,
        (datum.delegates.filter (fun y => isDelegateValid y t))[i]? = some dg ∧
        dg.delegateType = "veriKey" ∧ x = delegateVMId did i)) ∧
    (∀ x, x ∈ (buildDIDDocument network did datum t).assertionMethod ↔
      (x = ownerVMId did ∨ ∃ i dg,
        (datum.delegates.filter (fun y => isDelegateValid y t))[i]? = some dg ∧
        dg.delegateType = "sigAuth" ∧ x = delegateVMId did i)) ∧
    (∀ x, x ∈ ((buildDIDDocument network did datum t).keyAgreement).getD [] ↔
      (∃ i dg,
        (datum.delegates.filter (fun y => isDelegateValid y t))[i]? = some dg ∧
        dg.delegateType = "enc" ∧ x = delegateVMId did i)) ∧
    (∀ s, s ∈ ((buildDIDDocument network did datum t).service).getD [] ↔
      (∃ i attr,
        (datum.attributes.filter (fun y => isAttributeValid y t))[i]? = some attr ∧
        startsWith attr.name "did/svc/" = true ∧
        s = ⟨serviceEndpointId did i, String.drop attr.name 8, attr.value⟩)) := by
  refine ⟨buildDIDDocument_vm_accounts network did datum t, fun x => ?_, fun x => ?_,
    fun x => ?_, fun s => ?_⟩
  · rw [buildDIDDocument_authentication, List.mem_cons, mem_delegateRelIds]
  · rw [buildDIDDocument_assertionMethod, List.mem_cons, mem_delegateRelIds]
  · rw [buildDIDDocument_keyAgreement_getD, mem_delegateRelIds]
  · rw [buildDIDDocument_service_getD, mem_servicesOf]

/-- C10: a non-expired attribute whose name begins with "did/" but not with
"did/svc/" appears nowhere in the projected DID Document: every service entry
originates from a different attribute that does carry the "did/svc/" marker,
and no key of the cardanoIdentity custom-attribute map equals its name. -/
theorem c10_reserved_nonservice_hidden (network did : String) (datum : IdentityDatum)
    (t : Int) (att : Attribute)
    (hpre : startsWith att.name "did/" = true)
    (hsvc : ¬ startsWith att.name "did/svc/" = true) :
    (∀ s ∈ ((buildDIDDocument network did datum t).service).getD [],
        ∃ i b, (datum.attributes.filter (fun y => isAttributeValid y t))[i]? = some b ∧
          startsWith b.name "did/svc/" = true ∧ b ≠ att ∧
          s = ⟨serviceEndpointId did i, String.drop b.name 8, b.value⟩) ∧
    (∀ meta, (buildDIDDocument network did datum t).cardanoIdentity = some meta →
        ∀ kv ∈ meta.attributes, kv.1 ≠ att.name) := by
  constructor
  · intro s hs
    rw [buildDIDDocument_service_getD, mem_servicesOf] at hs
    obtain ⟨i, b, hget, hp, hseq⟩ := hs
    refine ⟨i, b, hget, hp, ?_, hseq⟩
    intro hba
    rw [hba] at hp
    exact hsvc hp
  · intro meta hmeta kv hkv
    have hattrs : meta.attributes =
        customAttrsOf (datum.attributes.filter (fun a => isAttributeValid a t)) := by
      simp only [buildDIDDocument] at hmeta
      split at hmeta
      · exact absurd hmeta (by simp)
      · cases hmeta
        rfl
    rw [hattrs] at hkv
    unfold customAttrsOf at hkv
    obtain ⟨y, hyf, hykv⟩ := List.mem_map.mp hkv
    obtain ⟨-, hpred⟩ := List.mem_filter.mp hyf
    intro hname
    rw [← hykv] at hname
    simp only at hname
    rw [hname] at hpred
    simp [hpre] at hpred

/-- C10 witness: on a Record holding the reserved non-service attribute
(did/foo, v) and the plain attribute (plain, w), the custom-attribute map of
the projection contains only the plain name. -/
theorem c10_witness :
    (startsWith ("did/foo" : String) "did/" = true) ∧
    (¬ startsWith ("did/foo" : String) "did/svc/" = true) ∧
    (∀ kv ∈ ({ network := "preprod", nonce := 3, attributes := [("plain", "w")] } :
        CardanoIdentityMeta).attributes, kv.1 ≠ ("did/foo" : String)) :=
  ⟨by decide, by decide, fun kv hkv =>
    (c10_reserved_nonservice_hidden "preprod" "dd"
        ⟨"ii", "oo", [], [⟨"did/foo", "v", 0⟩, ⟨"plain", "w", 0⟩], 3⟩ 100
        ⟨"did/foo", "v", 0⟩ (by decide) (by decide)).2
      { network := "preprod", nonce := 3, attributes := [("plain", "w")] }
      (by decide) kv hkv⟩

end DID

namespace DID

/-- The token-name derivation is the deterministic formula the specification
names: the hex-encoded SHA-256 of the transaction-hash bytes concatenated
with the output index as a 4-byte big-endian integer. -/
theorem computeIdentityTokenName_formula (txHashBytes : List Nat) (outputIndex : Nat) :
    Mesh.computeIdentityTokenName txHashBytes outputIndex =
      encodeHex (SHA256.sha256 (txHashBytes ++ be32 outputIndex)) :=
  rfl

/-- The three token-name implementations (MeshJS, Lucid, Java) compute the
same token name for the same reference. -/
theorem computeIdentityTokenName_implementations_agree (txHashBytes : List Nat)
    (outputIndex : Nat) :
    Mesh.computeIdentityTokenName txHashBytes outputIndex =
      Lucid.computeIdentityTokenName txHashBytes outputIndex ∧
    Lucid.computeIdentityTokenName txHashBytes outputIndex =
      Identity.computeIdentityTokenName txHashBytes outputIndex :=
  ⟨rfl, rfl⟩

/-- Distinct one-time-spendable references produce distinct SHA-256 inputs:
for equal-length transaction hashes and 32-bit output indices, the hash
preimage encoding is injective. Whether the token names themselves are
distinct additionally requires that SHA-256 not collide on these 36-byte
inputs, a property outside what can be settled here. -/
theorem tokenName_preimage_injective (h1 h2 : List Nat) (i1 i2 : Nat)
    (hlen : h1.length = h2.length) (hi1 : i1 < 4294967296) (hi2 : i2 < 4294967296)
    (heq : h1 ++ be32 i1 = h2 ++ be32 i2) : h1 = h2 ∧ i1 = i2 := by
  obtain ⟨hh, hb⟩ := List.append_inj heq hlen
  refine ⟨hh, ?_⟩
  simp only [be32, Nat.shiftRight_eq_div_pow, List.cons.injEq, and_true] at hb
  omega

/-- Witness for the preimage injectivity at two concrete distinct
references. -/
theorem tokenName_preimage_injective_witness :
    ((List.replicate 32 1 : List Nat).length = (List.replicate 32 1 : List Nat).length) ∧
    (2 < 4294967296) ∧ (2 < 4294967296) ∧
    ((List.replicate 32 1 : List Nat) = List.replicate 32 1 ∧ 2 = 2) :=
  ⟨rfl, by decide, by decide,
    tokenName_preimage_injective (List.replicate 32 1) (List.replicate 32 1) 2 2
      rfl (by decide) (by decide) rfl⟩

end DID
